import Mathlib

/-!
Verification of the student / promotion-rule model of the ced-jiu-jitsu
backend.  The definitions below are a shallow embedding of
`src/models/student.py`: Python `int` becomes `Int`, belt labels keep the
source's literal strings (`"branca"`, `"colorida"`, `"cinza"`, `"amarela"`,
`"laranja"`, `"verde"`; the specification refers to them by their English
translations white / colored / grey / yellow / orange / green), Firestore
documents become records of `Option` fields with explicit merge semantics,
and the possibility that a gateway write raises is an explicit boolean
parameter.
-/

namespace JiuJitsu

/-- The `Student` object of `src/models/student.py`: identity and profile
fields set by `__init__`, plus the attendance state
(`total_presences`, `last_presence_date`, `history_presences`). Timestamps
are modelled as integers. -/
structure Student where
  uid : String
  name : String
  email : String
  belt : String
  age : Int
  address : String
  education : String
  degrees : Int
  total_presences : Int
  last_presence_date : Option Int
  history_presences : List Int
deriving DecidableEq, Repr

/-- `Student.__init__` (lines 10-22): profile fields from the arguments,
attendance state initialised to `0`, `None`, `[]`. -/
def Student.init (uid name email belt : String) (age : Int)
    (address education : String) (degrees : Int) : Student :=
  { uid := uid, name := name, email := email, belt := belt, age := age,
    address := address, education := education, degrees := degrees,
    total_presences := 0, last_presence_date := none,
    history_presences := [] }

/-- The dictionary shape handled by `to_dict` / `from_dict`.  Each key may
be absent (`none`).  Python's `data.get('last_presence_date')` conflates an
absent key with a stored `None`, so that field is a single `Option Int`. -/
structure StudentDict where
  uid : Option String
  name : Option String
  email : Option String
  belt : Option String
  age : Option Int
  address : Option String
  education : Option String
  degrees : Option Int
  total_presences : Option Int
  last_presence_date : Option Int
  history_presences : Option (List Int)
deriving DecidableEq, Repr

/-- `Student.to_dict` (lines 24-40): every field is written out. -/
def Student.to_dict (s : Student) : StudentDict :=
  { uid := some s.uid, name := some s.name, email := some s.email,
    belt := some s.belt, age := some s.age, address := some s.address,
    education := some s.education, degrees := some s.degrees,
    total_presences := some s.total_presences,
    last_presence_date := s.last_presence_date,
    history_presences := some s.history_presences }

/-- `Student.from_dict` (lines 42-60): `data.get(key, default)` with
empty-string / zero / empty-list defaults, then the three attendance
fields are assigned directly. -/
def Student.from_dict (data : StudentDict) : Student :=
  let student := Student.init (data.uid.getD "") (data.name.getD "")
    (data.email.getD "") (data.belt.getD "") (data.age.getD 0)
    (data.address.getD "") (data.education.getD "") (data.degrees.getD 0)
  { student with
      total_presences := data.total_presences.getD 0,
      last_presence_date := data.last_presence_date,
      history_presences := data.history_presences.getD [] }

/-- `calculate_presences_for_next_degree` (lines 62-92), translated
branch for branch.  `max 0 (required - total_presences)` is the Python
`max(0, required - self.total_presences)` on unbounded integers. -/
def Student.calculate_presences_for_next_degree (s : Student) : Int :=
  if s.age ≤ 6 then
    if s.degrees = 0 then max 0 (10 - s.total_presences)
    else if s.degrees = 1 then max 0 (15 - s.total_presences)
    else if s.degrees = 2 then max 0 (15 - s.total_presences)
    else if s.degrees = 3 then max 0 (20 - s.total_presences)
    else 0
  else if s.age ≤ 13 then
    max 0 ((s.degrees + 1) * 25 - s.total_presences)
  else
    if s.belt = "branca" then max 0 (50 - s.total_presences)
    else if s.belt ∈ ["colorida", "cinza", "amarela", "laranja", "verde"] then
      max 0 (35 - s.total_presences)
    else max 0 ((s.degrees + 1) * 50 - s.total_presences)

/-- `Student.add_presence` (lines 94-116).  The in-memory mutation
(increment, set date, append) happens first; the subsequent Firestore
`set` may raise, modelled by the `writeOk` flag, in which case the
function returns `False` with the mutation already applied. -/
def Student.add_presence (s : Student) (date : Int) (writeOk : Bool) :
    Student × Bool :=
  let s' := { s with
      total_presences := s.total_presences + 1,
      last_presence_date := some date,
      history_presences := s.history_presences ++ [date] }
  (s', writeOk)

/-- Folding a sequence of attendance events (timestamp, gateway outcome)
over a student record. -/
def Student.apply_presences (s : Student) (events : List (Int × Bool)) :
    Student :=
  events.foldl (fun acc e => (acc.add_presence e.1 e.2).1) s

/-- The stored document of the `users` collection: profile plus `role`,
with every field optional (merge writes may leave some absent). -/
structure UserDoc where
  uid : Option String
  email : Option String
  role : Option String
  name : Option String
  belt : Option String
  age : Option Int
  address : Option String
  education : Option String
  degrees : Option Int
deriving DecidableEq, Repr

/-- The `user_data` document built by `Student.save` (lines 127-137):
all nine fields present, `role` fixed to `'aluno'`. -/
def Student.save_user_data (s : Student) : UserDoc :=
  { uid := some s.uid, email := some s.email, role := some "aluno",
    name := some s.name, belt := some s.belt, age := some s.age,
    address := some s.address, education := some s.education,
    degrees := some s.degrees }

/-- Firestore `set(..., merge=True)` on one field: a field present in the
written document overwrites, an absent field keeps the stored value. -/
def mergeField {α : Type} (written stored : Option α) : Option α :=
  match written with
  | some v => some v
  | none => stored

/-- Firestore `set(..., merge=True)` over a whole `users` document. -/
def UserDoc.setMerge (stored written : UserDoc) : UserDoc :=
  { uid := mergeField written.uid stored.uid,
    email := mergeField written.email stored.email,
    role := mergeField written.role stored.role,
    name := mergeField written.name stored.name,
    belt := mergeField written.belt stored.belt,
    age := mergeField written.age stored.age,
    address := mergeField written.address stored.address,
    education := mergeField written.education stored.education,
    degrees := mergeField written.degrees stored.degrees }

/-- `Student.get_students_close_to_graduation` (lines 186-198) with the
result of `get_all` made explicit: keep the students whose
`calculate_presences_for_next_degree` lies in `(0, max_presences]`. -/
def get_students_close_to_graduation (students : List Student)
    (max_presences : Int) : List Student :=
  students.filter (fun s =>
    decide (0 < s.calculate_presences_for_next_degree ∧
      s.calculate_presences_for_next_degree ≤ max_presences))

end JiuJitsu

namespace JiuJitsu

/-! ## Sample records used by witnesses -/

/-- An adult-bracket sample: age 16, grey belt, 3 degrees, 0 presences. -/
def sampleAdult : Student :=
  { uid := "u1", name := "Ana", email := "ana@x", belt := "cinza", age := 16,
    address := "", education := "", degrees := 3, total_presences := 0,
    last_presence_date := none, history_presences := [] }

/-- A kids-bracket sample: age 5, 0 degrees, 0 presences. -/
def sampleKid : Student :=
  { uid := "u2", name := "Bia", email := "bia@x", belt := "branca", age := 5,
    address := "", education := "", degrees := 0, total_presences := 0,
    last_presence_date := none, history_presences := [] }

/-- A youth-bracket sample: age 10, 2 degrees, 0 presences. -/
def sampleYouth : Student :=
  { uid := "u3", name := "Caio", email := "caio@x", belt := "colorida",
    age := 10, address := "", education := "", degrees := 2,
    total_presences := 0, last_presence_date := none,
    history_presences := [] }

/-! ## Claim theorems -/

/-- Claim C9: for every age, belt, degrees and total_presences (negative
inputs included), the evaluator returns a non-negative integer. -/
theorem calc_nonneg (s : Student) :
    0 ≤ s.calculate_presences_for_next_degree := by
  unfold Student.calculate_presences_for_next_degree
  repeat' split
  all_goals first | exact le_max_left 0 _ | exact le_refl 0

/-- Claim C1: in the adult bracket (age >= 14) the result is keyed by the
belt label: the white belt ("branca") needs max(0, 50 - total_presences),
the colored/grey/yellow/orange/green group ("colorida"/"cinza"/"amarela"/
"laranja"/"verde") needs max(0, 35 - total_presences) — degrees ignored in
both — and any other belt label needs
max(0, (degrees + 1) * 50 - total_presences). -/
theorem adult_bracket (s : Student) (hage : 14 ≤ s.age) :
    (s.belt = "branca" →
      s.calculate_presences_for_next_degree =
        max 0 (50 - s.total_presences)) ∧
    (s.belt ∈ ["colorida", "cinza", "amarela", "laranja", "verde"] →
      s.calculate_presences_for_next_degree =
        max 0 (35 - s.total_presences)) ∧
    (s.belt ≠ "branca" →
      s.belt ∉ ["colorida", "cinza", "amarela", "laranja", "verde"] →
      s.calculate_presences_for_next_degree =
        max 0 ((s.degrees + 1) * 50 - s.total_presences)) := by
  have h6 : ¬ s.age ≤ 6 := by omega
  have h13 : ¬ s.age ≤ 13 := by omega
  unfold Student.calculate_presences_for_next_degree
  rw [if_neg h6, if_neg h13]
  refine ⟨fun hb => by rw [if_pos hb], fun hb => ?_, fun hb1 hb2 => ?_⟩
  · have hnb : s.belt ≠ "branca" := by
      simp only [List.mem_cons, List.not_mem_nil, or_false] at hb
      rcases hb with h | h | h | h | h <;> simp [h]
    rw [if_neg hnb, if_pos hb]
  · rw [if_neg hb1, if_neg hb2]

/-- Claim C1 witness: the adult-bracket theorem instantiated at the grey
belt sample (age 16, degrees 3, 0 presences). -/
theorem adult_bracket_witness :
    14 ≤ sampleAdult.age ∧
    ((sampleAdult.belt = "branca" →
      sampleAdult.calculate_presences_for_next_degree =
        max 0 (50 - sampleAdult.total_presences)) ∧
    (sampleAdult.belt ∈ ["colorida", "cinza", "amarela", "laranja", "verde"] →
      sampleAdult.calculate_presences_for_next_degree =
        max 0 (35 - sampleAdult.total_presences)) ∧
    (sampleAdult.belt ≠ "branca" →
      sampleAdult.belt ∉ ["colorida", "cinza", "amarela", "laranja", "verde"] →
      sampleAdult.calculate_presences_for_next_degree =
        max 0 ((sampleAdult.degrees + 1) * 50 - sampleAdult.total_presences))) :=
  ⟨by decide, adult_bracket sampleAdult (by decide)⟩

/-- Claim C3: in the kids bracket (age <= 6), with non-negative
total_presences the required counts are 10 / 15 / 15 / 20 for degrees
0 / 1 / 2 / 3, clamped at zero; and for degrees >= 4 the result is 0
regardless of total_presences. -/
theorem kids_bracket (s : Student) (hage : s.age ≤ 6) :
    (0 ≤ s.total_presences →
      (s.degrees = 0 →
        s.calculate_presences_for_next_degree =
          max 0 (10 - s.total_presences)) ∧
      ((s.degrees = 1 ∨ s.degrees = 2) →
        s.calculate_presences_for_next_degree =
          max 0 (15 - s.total_presences)) ∧
      (s.degrees = 3 →
        s.calculate_presences_for_next_degree =
          max 0 (20 - s.total_presences))) ∧
    (4 ≤ s.degrees → s.calculate_presences_for_next_degree = 0) := by
  unfold Student.calculate_presences_for_next_degree
  rw [if_pos hage]
  constructor
  · intro _
    refine ⟨fun h0 => by rw [if_pos h0], fun h12 => ?_, fun h3 => ?_⟩
    · rcases h12 with h | h <;> simp [h]
    · have : s.degrees ≠ 0 := by omega
      have : s.degrees ≠ 1 := by omega
      have : s.degrees ≠ 2 := by omega
      simp_all
  · intro h4
    have : s.degrees ≠ 0 := by omega
    have : s.degrees ≠ 1 := by omega
    have : s.degrees ≠ 2 := by omega
    have : s.degrees ≠ 3 := by omega
    simp_all

/-- Claim C3 witness: the kids-bracket theorem instantiated at the age-5
sample with 0 degrees and 0 presences. -/
theorem kids_bracket_witness :
    sampleKid.age ≤ 6 ∧
    ((0 ≤ sampleKid.total_presences →
      (sampleKid.degrees = 0 →
        sampleKid.calculate_presences_for_next_degree =
          max 0 (10 - sampleKid.total_presences)) ∧
      ((sampleKid.degrees = 1 ∨ sampleKid.degrees = 2) →
        sampleKid.calculate_presences_for_next_degree =
          max 0 (15 - sampleKid.total_presences)) ∧
      (sampleKid.degrees = 3 →
        sampleKid.calculate_presences_for_next_degree =
          max 0 (20 - sampleKid.total_presences))) ∧
    (4 ≤ sampleKid.degrees →
      sampleKid.calculate_presences_for_next_degree = 0)) :=
  ⟨by decide, kids_bracket sampleKid (by decide)⟩

/-- Claim C4: in the youth bracket (7 <= age <= 13), with non-negative
degrees and total_presences, the result is
max(0, (degrees + 1) * 25 - total_presences). -/
theorem youth_bracket (s : Student) (h7 : 7 ≤ s.age) (h13 : s.age ≤ 13)
    (hdeg : 0 ≤ s.degrees) (htp : 0 ≤ s.total_presences) :
    s.calculate_presences_for_next_degree =
      max 0 ((s.degrees + 1) * 25 - s.total_presences) := by
  have h6 : ¬ s.age ≤ 6 := by omega
  unfold Student.calculate_presences_for_next_degree
  rw [if_neg h6, if_pos h13]

/-- Claim C4 witness: the youth-bracket theorem instantiated at the age-10
sample (degrees 2, 0 presences), where the result is 75. -/
theorem youth_bracket_witness :
    7 ≤ sampleYouth.age ∧ sampleYouth.age ≤ 13 ∧ 0 ≤ sampleYouth.degrees ∧
    0 ≤ sampleYouth.total_presences ∧
    sampleYouth.calculate_presences_for_next_degree =
      max 0 ((sampleYouth.degrees + 1) * 25 - sampleYouth.total_presences) :=
  ⟨by decide, by decide, by decide, by decide,
    youth_bracket sampleYouth (by decide) (by decide) (by decide) (by decide)⟩

end JiuJitsu

namespace JiuJitsu

/-- Claim C2 counterexample: an adult white-belt student with
total_presences = -5 gets a result of 55, not the 50 obtained when the
negative count is replaced by zero — the evaluator does not clamp negative
counts. -/
theorem negative_not_clamped_cex :
    ¬ (Student.calculate_presences_for_next_degree
        { uid := "u", name := "n", email := "e", belt := "branca", age := 20,
          address := "", education := "", degrees := 0,
          total_presences := -5, last_presence_date := none,
          history_presences := [] } =
      Student.calculate_presences_for_next_degree
        { uid := "u", name := "n", email := "e", belt := "branca", age := 20,
          address := "", education := "", degrees := 0,
          total_presences := 0, last_presence_date := none,
          history_presences := [] }) := by
  decide

/-- Claim C2 (amended): negative counts never raise (the evaluator is a
total function) but are used as-is rather than replaced by zero: lowering
total_presences — in particular below zero — never lowers the result, so a
call with a negative total_presences returns at least as much as the call
with zero. -/
theorem calc_antitone_in_presences (s : Student) (t1 t2 : Int)
    (h : t1 ≤ t2) :
    Student.calculate_presences_for_next_degree
        { s with total_presences := t2 } ≤
      Student.calculate_presences_for_next_degree
        { s with total_presences := t1 } := by
  unfold Student.calculate_presences_for_next_degree
  dsimp only
  repeat' split
  all_goals first
    | exact max_le_max (le_refl 0) (by omega)
    | exact le_refl 0

/-- Claim C2 witness: the antitonicity theorem applied to the adult sample
at total_presences -5 versus 0. -/
theorem calc_antitone_in_presences_witness :
    (-5 : Int) ≤ 0 ∧
    Student.calculate_presences_for_next_degree
        { sampleAdult with total_presences := 0 } ≤
      Student.calculate_presences_for_next_degree
        { sampleAdult with total_presences := -5 } :=
  ⟨by decide, calc_antitone_in_presences sampleAdult (-5) 0 (by decide)⟩

/-- Claim C5: add_presence increments total_presences by exactly 1, sets
last_presence_date to the given timestamp, appends it to
history_presences, reports the gateway outcome as its result, and the
mutated record is the same whether the durable write succeeds or fails
(the in-memory mutation occurs even on failure). -/
theorem add_presence_effects (s : Student) (date : Int) (writeOk : Bool) :
    (s.add_presence date writeOk).1.total_presences =
      s.total_presences + 1 ∧
    (s.add_presence date writeOk).1.last_presence_date = some date ∧
    (s.add_presence date writeOk).1.history_presences =
      s.history_presences ++ [date] ∧
    (s.add_presence date writeOk).2 = writeOk ∧
    (s.add_presence date false).1 = (s.add_presence date true).1 := by
  simp [Student.add_presence]

/-- The data-model invariant: the attendance counter equals the length of
the attendance history. -/
def Student.presence_invariant (s : Student) : Prop :=
  s.total_presences = (s.history_presences.length : Int)

/-- Any student satisfying the invariant still satisfies it after one
attendance event. -/
theorem add_presence_preserves_invariant (s : Student) (date : Int)
    (ok : Bool) (h : s.presence_invariant) :
    ((s.add_presence date ok).1).presence_invariant := by
  simp only [Student.presence_invariant, Student.add_presence,
    List.length_append, List.length_cons, List.length_nil] at *
  omega

/-- The invariant is preserved by any sequence of attendance events. -/
theorem apply_presences_preserves_invariant (events : List (Int × Bool))
    (s : Student) (h : s.presence_invariant) :
    (s.apply_presences events).presence_invariant := by
  induction events generalizing s with
  | nil => exact h
  | cons e rest ih =>
      exact ih _ (add_presence_preserves_invariant s e.1 e.2 h)

/-- Claim C6: every freshly constructed record satisfies
total_presences = len(history_presences), every add_presence call
preserves the equality, and therefore it holds after any sequence of
attendance calls starting from a freshly constructed record. -/
theorem presence_invariant_holds :
    (∀ uid name email belt age address education degrees,
      (Student.init uid name email belt age address education
        degrees).presence_invariant) ∧
    (∀ (s : Student) (date : Int) (ok : Bool), s.presence_invariant →
      ((s.add_presence date ok).1).presence_invariant) ∧
    (∀ uid name email belt age address education degrees
        (events : List (Int × Bool)),
      ((Student.init uid name email belt age address education
        degrees).apply_presences events).presence_invariant) := by
  refine ⟨fun _ _ _ _ _ _ _ _ => rfl,
    fun s date ok h => add_presence_preserves_invariant s date ok h,
    fun _ _ _ _ _ _ _ _ events =>
      apply_presences_preserves_invariant events _ rfl⟩

/-- Claim C6 witness: the invariant theorem applied to the kids sample
after one recorded attendance, with the invariant hypothesis discharged
on the freshly constructed record. -/
theorem presence_invariant_holds_witness :
    ((Student.init "u" "n" "e" "branca" 20 "" "" 0).add_presence 5
      true).1.presence_invariant :=
  presence_invariant_holds.2.1
    (Student.init "u" "n" "e" "branca" 20 "" "" 0) 5 true rfl

/-- The dictionary with every key absent. -/
def emptyStudentDict : StudentDict :=
  { uid := none, name := none, email := none, belt := none, age := none,
    address := none, education := none, degrees := none,
    total_presences := none, last_presence_date := none,
    history_presences := none }

/-- Claim C7: serialising a student and reconstructing from the result
yields an identical record field for field, and reconstructing from a
dictionary with every optional field absent yields the empty/zero
defaults of a freshly constructed record. -/
theorem round_trip (s : Student) :
    Student.from_dict s.to_dict = s ∧
    Student.from_dict emptyStudentDict =
      Student.init "" "" "" "" 0 "" "" 0 := by
  constructor
  · cases s
    rfl
  · rfl

/-- Claim C8: a student is in the close-to-graduation list exactly when it
is among the stored students and its presences_for_next_degree value n
satisfies 0 < n <= threshold; records with n = 0 or n above the threshold
are excluded. -/
theorem close_to_graduation_mem (students : List Student) (threshold : Int)
    (s : Student) :
    s ∈ get_students_close_to_graduation students threshold ↔
      s ∈ students ∧ 0 < s.calculate_presences_for_next_degree ∧
        s.calculate_presences_for_next_degree ≤ threshold := by
  simp [get_students_close_to_graduation, List.mem_filter]

/-- Claim C10: whatever user-account document was previously stored for
the student's uid, the merge write performed by save leaves the role
field equal to 'aluno', because the written document always carries
role = 'aluno'. -/
theorem save_marks_role_aluno (s : Student) (stored : UserDoc) :
    (stored.setMerge s.save_user_data).role = some "aluno" := by
  simp [UserDoc.setMerge, Student.save_user_data, mergeField]

end JiuJitsu
